import Mathlib

/-!
Shallow embedding of `scripts/v2_quick_test.py`, the JWT authorization-matrix
test harness: configuration tables, token acquisition, endpoint probing,
and the result-matrix comparison, together with theorems settling the
specification's claims about them.

Network effects are modelled by oracles: a `Net` maps a GET request
(url, optional Authorization header value) to either a response or a
transport-level exception message, and a `TokenNet` maps a token-endpoint
POST to either an exception or a pair of (status code, parsed
`access_token` field of the JSON body, `none` when absent).  Functions that
perform requests are embedded in a traced form returning both the Python
function's value and the list of requests it issued, so that claims about
which requests are (not) made become provable statements.
-/

namespace V2QuickTest

/-- Configuration constant `KEYCLOAK_URL` (line 19). -/
def KEYCLOAK_URL : String := "http://localhost:8090"

/-- Configuration constant `SPRING_BOOT_URL` (line 20). -/
def SPRING_BOOT_URL : String := "http://localhost:8080"

/-- Configuration constant `REALM` (line 21). -/
def REALM : String := "systech"

/-- Configuration constant `CLIENT_ID` (line 22). -/
def CLIENT_ID : String := "systech-hrms-client"

/-- Configuration constant `PASSWORD` (line 23). -/
def PASSWORD : String := "systech@123"

/-- One entry of the `TEST_USERS` table (lines 26-42). -/
structure UserInfo where
  username : String
  expected_group : String
  description : String
deriving DecidableEq, Repr

/-- The `TEST_USERS` dict (lines 26-42), as an association list in insertion
order (Python dicts preserve insertion order). -/
def TEST_USERS : List (String × UserInfo) :=
  [("user", ⟨"basic_user", "basic-users", "Basic User"⟩),
   ("app-admin", ⟨"appadmin", "app-admins", "Application Admin"⟩),
   ("platform-admin", ⟨"babu.systech", "platform-admins", "Platform Admin"⟩)]

/-- One entry of the `ENDPOINTS` table (lines 45-66). -/
structure Endpoint where
  path : String
  description : String
  auth_required : Bool
deriving DecidableEq, Repr

/-- The `ENDPOINTS` dict (lines 45-66), in insertion order. -/
def ENDPOINTS : List (String × Endpoint) :=
  [("public", ⟨"/api/public/hello", "Public Access", false⟩),
   ("user", ⟨"/api/user/hello", "User Level", true⟩),
   ("manager", ⟨"/api/manager/hello", "Manager Level", true⟩),
   ("admin", ⟨"/api/admin/hello", "Admin Level", true⟩)]

/-- The `EXPECTED_RESULTS` dict (lines 69-73): expected status code per
user key per endpoint key. -/
def EXPECTED_RESULTS : List (String × List (String × Nat)) :=
  [("user", [("public", 200), ("user", 200), ("manager", 403), ("admin", 403)]),
   ("app-admin", [("public", 200), ("user", 200), ("manager", 200), ("admin", 403)]),
   ("platform-admin", [("public", 200), ("user", 200), ("manager", 200), ("admin", 200)])]

/-- An HTTP response as the script consumes it: `status_code` and body text. -/
structure HttpResponse where
  status_code : Nat
  text : String
deriving DecidableEq, Repr

/-- A GET request issued by `test_endpoint`: the url and the optional value
of the `Authorization` header (the only header the script ever sets). -/
structure HttpRequest where
  url : String
  authorization : Option String
deriving DecidableEq, Repr

/-- Oracle for `requests.get` (line 138): the response for a given url and
optional Authorization header, or a transport-level exception message
(timeout, connection refused, ...). -/
abbrev Net := String → Option String → Except String HttpResponse

/-- The POST issued by `get_jwt_token` (lines 98-108): the token url and the
form fields of `data`. -/
structure TokenRequest where
  url : String
  grant_type : String
  client_id : String
  username : String
  password : String
deriving DecidableEq, Repr

/-- Oracle for `requests.post` on the token endpoint: either a transport
exception, or the response status code together with the parsed
`access_token` field of the JSON body (`none` when the field is absent). -/
abbrev TokenNet := TokenRequest → Except String (Nat × Option String)

/-- The token url built at line 98:
`f"{KEYCLOAK_URL}/realms/{REALM}/protocol/openid-connect/token"`. -/
def token_url : String :=
  KEYCLOAK_URL ++ "/realms/" ++ REALM ++ "/protocol/openid-connect/token"

/-- The `data` dict of lines 100-105 for a given username and password. -/
def mkTokenRequest (username password : String) : TokenRequest :=
  ⟨token_url, "password", CLIENT_ID, username, password⟩

/-- Python truthiness of an `Optional[str]`: `None` and the empty string are
falsy (used by `if not token` at line 160 and `if token and ...` at
line 134). -/
def tokenTruthy : Option String → Bool
  | none => false
  | some t => t != ""

/-- Embedding of `get_jwt_token` (lines 87-117), traced: returns the Python value
(`access_token` on HTTP 200, `None` on a non-200 status or any exception)
together with the single token request it issues. -/
def get_jwt_token_t (post : TokenNet) (username password : String) :
    Option String × List TokenRequest :=
  let req := mkTokenRequest username password
  (match post req with
   | .ok (code, tok) => if code = 200 then tok else none
   | .error _ => none,
   [req])

/-- Embedding of `get_jwt_token` (lines 87-117): value component of the traced embedding. -/
def get_jwt_token (post : TokenNet) (username password : String) : Option String :=
  (get_jwt_token_t post username password).1

/-- The `headers` dict computed at lines 133-135: the Authorization header is
set to `f"Bearer {token}"` exactly when `token` is truthy and the endpoint
has `auth_required` set. -/
def probe_auth (endpoint : Endpoint) (token : Option String) : Option String :=
  if tokenTruthy token && endpoint.auth_required then
    some ("Bearer " ++ token.getD "")
  else
    none

/-- Embedding of `test_endpoint` (lines 119-141), traced, taking the resolved `Endpoint`
record (the Python function receives `endpoint_key` and resolves
`ENDPOINTS[endpoint_key]`; every call site passes a key of `ENDPOINTS`, see
`test_user_permissions_core`).  Returns the `(status_code, text)` value —
`(0, "Connection Error: ...")` when the GET raises — and the single GET
request issued. -/
def test_endpoint_t (net : Net) (endpoint : Endpoint) (token : Option String) :
    (Nat × String) × HttpRequest :=
  let url := SPRING_BOOT_URL ++ endpoint.path
  let auth := probe_auth endpoint token
  (match net url auth with
   | .ok r => (r.status_code, r.text.take 100)
   | .error e => (0, "Connection Error: " ++ e),
   ⟨url, auth⟩)

/-- Embedding of `test_user_permissions` (lines 143-187) for a resolved `UserInfo` row,
traced: returns the endpoint-key-to-status-code result dict, the token
requests issued, and the GET requests issued.  When `get_jwt_token` returns
a falsy token the function returns `{endpoint: 0 for endpoint in
ENDPOINTS.keys()}` without probing (lines 160-161); otherwise it probes
every endpoint, passing `None` as the token for `"public"` (line 170). -/
def test_user_permissions_core (net : Net) (post : TokenNet) (u : UserInfo) :
    List (String × Nat) × List TokenRequest × List HttpRequest :=
  let tk := get_jwt_token_t post u.username PASSWORD
  if !(tokenTruthy tk.1) then
    (ENDPOINTS.map (fun kv => (kv.1, 0)), tk.2, [])
  else
    let cells := ENDPOINTS.map (fun kv =>
      let test_token := if kv.1 = "public" then none else tk.1
      ((kv.1, (test_endpoint_t net kv.2 test_token).1.1),
       (test_endpoint_t net kv.2 test_token).2))
    (cells.map Prod.fst, tk.2, cells.map Prod.snd)

/-- Embedding of `test_user_permissions` (lines 143-187) by user key: resolves
`TEST_USERS[user_key]` (line 153), `none` modelling the `KeyError` on an
unknown key. -/
def test_user_permissions_t (net : Net) (post : TokenNet) (user_key : String) :
    Option (List (String × Nat) × List TokenRequest × List HttpRequest) :=
  (List.lookup user_key TEST_USERS).map (test_user_permissions_core net post)

/-- The probe loop of `main` (lines 305-309): `all_results[user_key] =
test_user_permissions(user_key)` for every key of `TEST_USERS`, traced.
Returns `all_results` in insertion order, the token requests, and the GET
requests of the whole run. -/
def run_tests_t (net : Net) (post : TokenNet) :
    List (String × List (String × Nat)) × List TokenRequest × List HttpRequest :=
  let runs := TEST_USERS.map (fun kv => (kv.1, test_user_permissions_core net post kv.2))
  (runs.map (fun x => (x.1, x.2.1)),
   runs.flatMap (fun x => x.2.2.1),
   runs.flatMap (fun x => x.2.2.2))

/-- Status classes of the script's result presentation, named after the
legend at lines 235-239: 200 = Success, 403 = Forbidden, 401 = Unauthorized
(authentication failed), any other code = Error (server error or connection
issue), which retains the raw code. -/
inductive StatusClass where
  | SUCCESS : StatusClass
  | FORBIDDEN : StatusClass
  | UNAUTHENTICATED : StatusClass
  | ERROR : Nat → StatusClass
deriving DecidableEq, Repr

/-- The status classification of lines 174-182 (`if status_code == 200 ...
elif 403 ... elif 401 ... else ...`), with classes named per the legend at
lines 235-239. -/
def classify (status_code : Nat) : StatusClass :=
  if status_code = 200 then .SUCCESS
  else if status_code = 403 then .FORBIDDEN
  else if status_code = 401 then .UNAUTHENTICATED
  else .ERROR status_code

/-- The endpoint columns iterated by `display_results_matrix` at line 212:
`["public", "user", "manager", "admin"]`. -/
def DISPLAY_ENDPOINTS : List String := ["public", "user", "manager", "admin"]

/-- The per-row cell loop of `display_results_matrix` (lines 212-223):
`actual = results.get(endpoint, 0)`, `expected_code = expected[endpoint]`
(a `KeyError`, modelled as `.error`, when the expectation row lacks the
endpoint), and `all_match &&= (actual == expected_code)`. -/
def row_match_go (results expectedRow : List (String × Nat)) :
    List String → Bool → Except String Bool
  | [], all_match => .ok all_match
  | ep :: rest, all_match =>
    match List.lookup ep expectedRow with
    | none => .error ("KeyError: " ++ ep)
    | some e =>
      row_match_go results expectedRow rest
        (all_match && ((List.lookup ep results).getD 0 == e))

/-- The per-identity `all_match` verdict of `display_results_matrix`
(lines 210-223): starts `True`, iterates the four display endpoints, any
mismatching cell forces `False`. -/
def row_all_match (results expectedRow : List (String × Nat)) : Except String Bool :=
  row_match_go results expectedRow DISPLAY_ENDPOINTS true

/-- The row loop of `display_results_matrix` (lines 204-230) with the
expectation matrix as a parameter (the script reads the module-level
`EXPECTED_RESULTS`, line 206, and `TEST_USERS`, line 205): for each
`(user_key, results)` of `all_results`, resolve `TEST_USERS[user_key]` and
`expected_matrix[user_key]` (a `KeyError` when absent) and compute the
row's `all_match` verdict. -/
def display_verdicts (expected_matrix : List (String × List (String × Nat))) :
    List (String × List (String × Nat)) → Except String (List (String × Bool))
  | [] => .ok []
  | (user_key, results) :: rest =>
    match List.lookup user_key TEST_USERS with
    | none => .error ("KeyError: " ++ user_key)
    | some _ =>
      match List.lookup user_key expected_matrix with
      | none => .error ("KeyError: " ++ user_key)
      | some expectedRow =>
        match row_all_match results expectedRow with
        | .error e => .error e
        | .ok b =>
          match display_verdicts expected_matrix rest with
          | .error e => .error e
          | .ok tail => .ok ((user_key, b) :: tail)

/-- The generator `all(results.get(endpoint, 0) ==
EXPECTED_RESULTS[user_key][endpoint] for endpoint in ENDPOINTS.keys())` of
lines 317-318, with Python's short-circuit: a cell that compares unequal
stops the iteration before later cells can raise. -/
def all_success_go (results expectedRow : List (String × Nat)) :
    List String → Except String Bool
  | [] => .ok true
  | ep :: rest =>
    match List.lookup ep expectedRow with
    | none => .error ("KeyError: " ++ ep)
    | some e =>
      if (List.lookup ep results).getD 0 == e then
        all_success_go results expectedRow rest
      else
        .ok false

/-- The per-user success test of `main`'s summary (lines 316-318), for one
user's results against one expectation row, over `ENDPOINTS.keys()`. -/
def user_success (results expectedRow : List (String × Nat)) : Except String Bool :=
  all_success_go results expectedRow (ENDPOINTS.map Prod.fst)

/-- Embedding of `successful_users` of `main` (lines 316-318) with the expectation matrix
as a parameter: counts users whose every cell matches; `EXPECTED_RESULTS
[user_key]` raises `KeyError` (modelled as `.error`) when the row is
absent. -/
def successful_users_go (expected_matrix : List (String × List (String × Nat))) :
    List (String × List (String × Nat)) → Except String Nat
  | [] => .ok 0
  | (user_key, results) :: rest =>
    match List.lookup user_key expected_matrix with
    | none => .error ("KeyError: " ++ user_key)
    | some expectedRow =>
      match user_success results expectedRow with
      | .error e => .error e
      | .ok b =>
        match successful_users_go expected_matrix rest with
        | .error e => .error e
        | .ok n => .ok ((if b then 1 else 0) + n)

/-- The four expectation reads on `display_expected_matrix`'s row line
(line 251): `expected['public']`, `expected['user']`, `expected['manager']`,
`expected['admin']`, evaluated left to right, the first missing one raising
`KeyError` (modelled as `.error`). -/
def read_cells (expected : List (String × Nat)) :
    List String → Except String (List Nat)
  | [] => .ok []
  | ep :: rest =>
    match List.lookup ep expected with
    | none => .error ("KeyError: " ++ ep)
    | some v =>
      match read_cells expected rest with
      | .error e => .error e
      | .ok tail => .ok (v :: tail)

/-- The row loop of `display_expected_matrix` (lines 248-251) with the
expectation matrix as a parameter (the script iterates the module-level
`EXPECTED_RESULTS.items()`, line 248): each row resolves
`TEST_USERS[user_key]` (line 249) and reads its four displayed cells
(line 251), any `KeyError` aborting the rendering.  Rows absent from the
matrix are never visited here. -/
def display_expected_rows :
    List (String × List (String × Nat)) → Except String (List (String × List Nat))
  | [] => .ok []
  | (user_key, expected) :: rest =>
    match List.lookup user_key TEST_USERS with
    | none => .error ("KeyError: " ++ user_key)
    | some _ =>
      match read_cells expected DISPLAY_ENDPOINTS with
      | .error e => .error e
      | .ok cells =>
        match display_expected_rows rest with
        | .error e => .error e
        | .ok tail => .ok ((user_key, cells) :: tail)

/-- The `main` flow from line 299 on, with the expectation matrix as a
parameter: `display_expected_matrix()` (line 299) renders every expectation
row before any probe, then the probe loop fills `all_results`
(lines 305-309), then `display_results_matrix` (line 312) and the summary
count (lines 316-318) compare against the matrix.  A raised `KeyError`
(modelled as `.error`) aborts the run where it occurs.  Returns the run
outcome and the GET requests the probe loop issued.
(`check_prerequisites`, line 294, precedes this flow; it only pings the two
servers and issues no identity probe.) -/
def main_flow (em : List (String × List (String × Nat)))
    (net : Net) (post : TokenNet) :
    Except String (List (String × Bool) × Nat) × List HttpRequest :=
  match display_expected_rows em with
  | .error e => (.error e, [])
  | .ok _ =>
    let r := run_tests_t net post
    (match display_verdicts em r.1 with
     | .error e => .error e
     | .ok verdicts =>
       match successful_users_go em r.1 with
       | .error e => .error e
       | .ok n => .ok (verdicts, n), r.2.2)

/-! ### Concrete oracles and configurations used by witnesses and
counterexamples -/

/-- A network on which every GET succeeds with status 200. -/
def netOk200 : Net := fun _ _ => .ok ⟨200, "Hello"⟩

/-- A network on which every GET raises a transport-level exception. -/
def netDown : Net := fun _ _ => .error "timed out"

/-- A token issuer that returns a token `"tok"` for every request. -/
def postTok : TokenNet := fun _ => .ok (200, some "tok")

/-- A token issuer on which every POST raises a transport-level exception,
so `get_jwt_token` returns `None` for every identity. -/
def postFail : TokenNet := fun _ => .error "connection refused"

/-- Variant of `EXPECTED_RESULTS` with the `("user", "admin")` cell removed: an
expectation matrix missing one identity-resource pair. -/
def EXPECTED_MISSING : List (String × List (String × Nat)) :=
  [("user", [("public", 200), ("user", 200), ("manager", 403)]),
   ("app-admin", [("public", 200), ("user", 200), ("manager", 200), ("admin", 403)]),
   ("platform-admin", [("public", 200), ("user", 200), ("manager", 200), ("admin", 200)])]

/-- Variant of `EXPECTED_RESULTS` with the whole `"user"` row removed: an
expectation matrix missing all four of that identity's pairs. -/
def EXPECTED_MISSING_ROW : List (String × List (String × Nat)) :=
  [("app-admin", [("public", 200), ("user", 200), ("manager", 200), ("admin", 403)]),
   ("platform-admin", [("public", 200), ("user", 200), ("manager", 200), ("admin", 200)])]

/-! ### Helper lemmas -/

/-- Unfolding: `get_jwt_token_t` returns the plain `get_jwt_token` value together with
the single POST it issues. -/
theorem get_jwt_token_t_eq (post : TokenNet) (username password : String) :
    get_jwt_token_t post username password =
      (get_jwt_token post username password, [mkTokenRequest username password]) := rfl

/-- When `get_jwt_token` yields a truthy token `t`, `test_user_permissions`
probes every endpoint, passing no token for `"public"` and `t` otherwise. -/
theorem test_user_permissions_core_token (net : Net) (post : TokenNet)
    (u : UserInfo) (t : String)
    (ht : get_jwt_token post u.username PASSWORD = some t) (hne : t ≠ "") :
    test_user_permissions_core net post u =
      (ENDPOINTS.map (fun kv =>
         (kv.1, (test_endpoint_t net kv.2 (if kv.1 = "public" then none else some t)).1.1)),
       [mkTokenRequest u.username PASSWORD],
       ENDPOINTS.map (fun kv =>
         (test_endpoint_t net kv.2 (if kv.1 = "public" then none else some t)).2)) := by
  unfold test_user_permissions_core
  rw [get_jwt_token_t_eq, ht]
  simp [tokenTruthy, bne_iff_ne, hne, List.map_map, Function.comp]

/-- When `get_jwt_token` yields no truthy token, `test_user_permissions`
returns the all-zero dict and issues no GET request. -/
theorem test_user_permissions_core_fail (net : Net) (post : TokenNet)
    (u : UserInfo)
    (hfail : get_jwt_token post u.username PASSWORD = none) :
    test_user_permissions_core net post u =
      (ENDPOINTS.map (fun kv => (kv.1, 0)),
       [mkTokenRequest u.username PASSWORD], []) := by
  unfold test_user_permissions_core
  rw [get_jwt_token_t_eq, hfail]
  simp [tokenTruthy]

/-! ### Claims -/

/-- C1, counterexample.  On a network where every probe would succeed with
status 200 but the token issuer is down, identity `"user"`'s run yields the
all-zero result with an empty GET trace: the probes are skipped entirely
(trace `[]`), the public cell is the sentinel `0` rather than the `200` the
network would have returned, and `0` does not classify as UNAUTHENTICATED —
contradicting the claim that every probe still executes. -/
theorem C1_counterexample :
    test_user_permissions_t netOk200 postFail "user" =
      some ([("public", 0), ("user", 0), ("manager", 0), ("admin", 0)],
            [mkTokenRequest "basic_user" PASSWORD], []) ∧
    classify 0 ≠ StatusClass.UNAUTHENTICATED ∧
    netOk200 (SPRING_BOOT_URL ++ "/api/public/hello") none = .ok ⟨200, "Hello"⟩ := by
  exact ⟨rfl, by decide, rfl⟩

/-- C1 (amended): when credential acquisition fails for an identity
(`get_jwt_token` returns `None`), no probe is issued for that identity at
all; the run still records exactly one entry per resource for it —
including the public one — but every entry is the sentinel status `0`, not
an executed probe's outcome. -/
theorem C1_broker_failure_skips_probes (net : Net) (post : TokenNet)
    (user_key : String) (u : UserInfo)
    (hu : List.lookup user_key TEST_USERS = some u)
    (hfail : get_jwt_token post u.username PASSWORD = none) :
    test_user_permissions_t net post user_key =
      some (ENDPOINTS.map (fun kv => (kv.1, 0)),
            [mkTokenRequest u.username PASSWORD], []) := by
  simp only [test_user_permissions_t, hu, Option.map_some']
  exact congrArg some (test_user_permissions_core_fail net post u hfail)

/-- C1, witness for the amended theorem at identity `"user"` with the
always-failing token issuer. -/
theorem C1_witness :
    test_user_permissions_t netOk200 postFail "user" =
      some (ENDPOINTS.map (fun kv => (kv.1, 0)),
            [mkTokenRequest "basic_user" PASSWORD], []) :=
  C1_broker_failure_skips_probes netOk200 postFail "user"
    ⟨"basic_user", "basic-users", "Basic User"⟩ rfl rfl

/-- C2, counterexample.  201 is a 2xx status code, yet it does not classify
as SUCCESS: the script special-cases exactly 200.  Moreover the transport
sentinel 0 and an arbitrary unmapped code such as 502 both land in the same
catch-all error class — there is no distinct TRANSPORT_ERROR class. -/
theorem C2_counterexample :
    (200 ≤ 201 ∧ 201 < 300) ∧ classify 201 ≠ StatusClass.SUCCESS ∧
    classify 0 = StatusClass.ERROR 0 ∧ classify 502 = StatusClass.ERROR 502 := by
  decide

/-- C2 (amended): classification is a pure total function of the status
code alone; exactly 200 classifies as SUCCESS, 401 as UNAUTHENTICATED, 403
as FORBIDDEN, and every code outside these three — including the sentinel 0
recorded for transport failures — falls into a single catch-all error class
retaining the raw code. -/
theorem C2_classification (c : Nat) :
    (classify c = StatusClass.SUCCESS ↔ c = 200) ∧
    (classify c = StatusClass.UNAUTHENTICATED ↔ c = 401) ∧
    (classify c = StatusClass.FORBIDDEN ↔ c = 403) ∧
    (c = 200 ∨ c = 401 ∨ c = 403 ∨ classify c = StatusClass.ERROR c) := by
  unfold classify
  split_ifs with h1 h2 h3 <;> simp_all

/-- C5: a probe against an endpoint whose `auth_required` flag is false
carries no Authorization header, whatever token is available. -/
theorem C5_no_credential_on_public (net : Net) (endpoint : Endpoint)
    (token : Option String) (h : endpoint.auth_required = false) :
    (test_endpoint_t net endpoint token).2.authorization = none := by
  simp [test_endpoint_t, probe_auth, h]

/-- C5, witness at the public endpoint with a token available. -/
theorem C5_witness :
    (test_endpoint_t netOk200 ⟨"/api/public/hello", "Public Access", false⟩
      (some "tok")).2.authorization = none :=
  C5_no_credential_on_public netOk200 _ (some "tok") rfl

/-- The result dict of `test_user_permissions` covers exactly the endpoint
keys, in order, in both the token-failure and the probing branch. -/
theorem core_result_keys (net : Net) (post : TokenNet) (u : UserInfo) :
    (test_user_permissions_core net post u).1.map Prod.fst = ENDPOINTS.map Prod.fst := by
  unfold test_user_permissions_core
  cases htk : tokenTruthy (get_jwt_token_t post u.username PASSWORD).1 <;>
    simp [htk, List.map_map, Function.comp, ENDPOINTS]

/-- C6: in every run, whatever the network and token issuer do, the results
collection has exactly one row per identity of `TEST_USERS` — the row keys
are exactly the identity keys, which are pairwise distinct — and every row
of the collection has exactly one cell per endpoint of `ENDPOINTS` — the
cell keys are exactly the endpoint keys, which are pairwise distinct. -/
theorem C6_completeness (net : Net) (post : TokenNet)
    (row : String × List (String × Nat))
    (hrow : row ∈ (run_tests_t net post).1) :
    (run_tests_t net post).1.map Prod.fst = TEST_USERS.map Prod.fst ∧
    (TEST_USERS.map Prod.fst).Nodup ∧
    (ENDPOINTS.map Prod.fst).Nodup ∧
    row.2.map Prod.fst = ENDPOINTS.map Prod.fst := by
  refine ⟨rfl, by decide, by decide, ?_⟩
  simp only [run_tests_t, TEST_USERS, List.map_cons, List.map_nil, List.mem_cons,
    List.not_mem_nil, or_false] at hrow
  rcases hrow with rfl | rfl | rfl <;> exact core_result_keys net post _

/-- C6, witness on the all-200 network with failing token issuer (the
token-failure branch also yields exactly one cell per endpoint), at the
run's `"user"` row. -/
theorem C6_witness :
    (run_tests_t netOk200 postFail).1.map Prod.fst = TEST_USERS.map Prod.fst ∧
    (TEST_USERS.map Prod.fst).Nodup ∧
    (ENDPOINTS.map Prod.fst).Nodup ∧
    (("user", ENDPOINTS.map (fun kv => (kv.1, 0))) :
      String × List (String × Nat)).2.map Prod.fst = ENDPOINTS.map Prod.fst :=
  C6_completeness netOk200 postFail ("user", ENDPOINTS.map (fun kv => (kv.1, 0)))
    (by decide)

/-- C8: a transport-level failure during a probe is caught and recorded as
the sentinel outcome `(0, "Connection Error: ...")` rather than propagated,
and the run continues: an identity holding a token still issues all of its
probes and records one cell per endpoint, even on a network where this (or
every) probe fails. -/
theorem C8_transport_error_recorded (net : Net) (post : TokenNet)
    (endpoint : Endpoint) (token : Option String) (msg : String)
    (herr : net (SPRING_BOOT_URL ++ endpoint.path) (probe_auth endpoint token) =
      .error msg)
    (user_key : String) (u : UserInfo) (t : String)
    (hu : List.lookup user_key TEST_USERS = some u)
    (ht : get_jwt_token post u.username PASSWORD = some t) (hne : t ≠ "") :
    (test_endpoint_t net endpoint token).1 = (0, "Connection Error: " ++ msg) ∧
    (test_user_permissions_t net post user_key).map (fun r => r.2.2.length) =
      some ENDPOINTS.length ∧
    (test_user_permissions_t net post user_key).map (fun r => r.1.map Prod.fst) =
      some (ENDPOINTS.map Prod.fst) := by
  refine ⟨by simp [test_endpoint_t, herr], ?_, ?_⟩ <;>
    simp [test_user_permissions_t, hu, test_user_permissions_core_token net post u t ht hne,
      List.map_map, Function.comp, ENDPOINTS]

/-- C8, witness: identity `"user"` on the always-failing network with a
healthy token issuer. -/
theorem C8_witness :
    (test_endpoint_t netDown ⟨"/api/admin/hello", "Admin Level", true⟩
      (some "tok")).1 = (0, "Connection Error: " ++ "timed out") ∧
    (test_user_permissions_t netDown postTok "user").map (fun r => r.2.2.length) =
      some ENDPOINTS.length ∧
    (test_user_permissions_t netDown postTok "user").map (fun r => r.1.map Prod.fst) =
      some (ENDPOINTS.map Prod.fst) :=
  C8_transport_error_recorded netDown postTok ⟨"/api/admin/hello", "Admin Level", true⟩
    (some "tok") "timed out" rfl "user" ⟨"basic_user", "basic-users", "Basic User"⟩
    "tok" rfl rfl (by decide)

/-- C4: with a complete expectation row, the per-identity `all_match`
verdict is true precisely when every one of the four displayed cells has
its observed status equal to its expected status — a single mismatched cell
forces the verdict false — and this display verdict coincides with the
per-user success test of `main`'s summary. -/
theorem C4_row_verdict_iff (results expectedRow : List (String × Nat))
    (e1 e2 e3 e4 : Nat)
    (h1 : List.lookup "public" expectedRow = some e1)
    (h2 : List.lookup "user" expectedRow = some e2)
    (h3 : List.lookup "manager" expectedRow = some e3)
    (h4 : List.lookup "admin" expectedRow = some e4) :
    (row_all_match results expectedRow = .ok true ↔
      ∀ ep ∈ DISPLAY_ENDPOINTS,
        some ((List.lookup ep results).getD 0) = List.lookup ep expectedRow) ∧
    row_all_match results expectedRow = user_success results expectedRow := by
  have hd : user_success results expectedRow =
      all_success_go results expectedRow DISPLAY_ENDPOINTS := rfl
  rw [hd]
  constructor
  · simp [row_all_match, DISPLAY_ENDPOINTS, row_match_go, h1, h2, h3, h4, and_assoc]
  · simp only [row_all_match, DISPLAY_ENDPOINTS, row_match_go, all_success_go, h1, h2, h3, h4]
    cases hb1 : ((List.lookup "public" results).getD 0 == e1) <;>
      cases hb2 : ((List.lookup "user" results).getD 0 == e2) <;>
      cases hb3 : ((List.lookup "manager" results).getD 0 == e3) <;>
      cases hb4 : ((List.lookup "admin" results).getD 0 == e4) <;>
      simp [row_match_go, all_success_go, h1, h2, h3, h4, hb1, hb2, hb3, hb4]

/-- C4, witness at the `"user"` expectation row with fully matching observed
results. -/
theorem C4_witness :
    (row_all_match [("public", 200), ("user", 200), ("manager", 403), ("admin", 403)]
        [("public", 200), ("user", 200), ("manager", 403), ("admin", 403)] = .ok true ↔
      ∀ ep ∈ DISPLAY_ENDPOINTS,
        some ((List.lookup ep
            [("public", 200), ("user", 200), ("manager", 403), ("admin", 403)]).getD 0) =
          List.lookup ep
            [("public", 200), ("user", 200), ("manager", 403), ("admin", 403)]) ∧
    row_all_match [("public", 200), ("user", 200), ("manager", 403), ("admin", 403)]
        [("public", 200), ("user", 200), ("manager", 403), ("admin", 403)] =
      user_success [("public", 200), ("user", 200), ("manager", 403), ("admin", 403)]
        [("public", 200), ("user", 200), ("manager", 403), ("admin", 403)] :=
  C4_row_verdict_iff _ _ 200 200 403 403 rfl rfl rfl rfl

/-- The cell loop of the display verdict depends on the observed results
only through the `results.get(endpoint, 0)` lookups at the iterated
endpoints. -/
theorem row_match_go_congr (r1 r2 expectedRow : List (String × Nat))
    (l : List String)
    (h : ∀ ep ∈ l, (List.lookup ep r1).getD 0 = (List.lookup ep r2).getD 0) :
    ∀ acc : Bool, row_match_go r1 expectedRow l acc = row_match_go r2 expectedRow l acc := by
  induction l with
  | nil => intro acc; rfl
  | cons ep rest ih =>
    intro acc
    cases hl : List.lookup ep expectedRow with
    | none => simp [row_match_go, hl]
    | some e =>
      simp only [row_match_go, hl]
      rw [h ep (by simp)]
      exact ih (fun ep2 h2 => h ep2 (by simp [h2])) _

/-- The summary's per-user success generator depends on the observed results
only through the `results.get(endpoint, 0)` lookups at the iterated
endpoints. -/
theorem all_success_go_congr (r1 r2 expectedRow : List (String × Nat))
    (l : List String)
    (h : ∀ ep ∈ l, (List.lookup ep r1).getD 0 = (List.lookup ep r2).getD 0) :
    all_success_go r1 expectedRow l = all_success_go r2 expectedRow l := by
  induction l with
  | nil => rfl
  | cons ep rest ih =>
    cases hl : List.lookup ep expectedRow with
    | none => simp [all_success_go, hl]
    | some e =>
      simp only [all_success_go, hl]
      rw [h ep (by simp)]
      cases hc : ((List.lookup ep r2).getD 0 == e)
      · simp [hc]
      · simpa [hc] using ih (fun ep2 h2 => h ep2 (by simp [h2]))

/-- Unfolding equation of the display row loop when the user key is not a
`TEST_USERS` key. -/
theorem display_verdicts_cons_nouser
    (em : List (String × List (String × Nat))) (uk : String)
    (results : List (String × Nat)) (rest : List (String × List (String × Nat)))
    (h1 : List.lookup uk TEST_USERS = none) :
    display_verdicts em ((uk, results) :: rest) = .error ("KeyError: " ++ uk) := by
  simp [display_verdicts, h1]

/-- Unfolding equation of the display row loop when the expectation matrix
has no row for the user key. -/
theorem display_verdicts_cons_noexp
    (em : List (String × List (String × Nat))) (uk : String) (u : UserInfo)
    (results : List (String × Nat)) (rest : List (String × List (String × Nat)))
    (h1 : List.lookup uk TEST_USERS = some u)
    (h2 : List.lookup uk em = none) :
    display_verdicts em ((uk, results) :: rest) = .error ("KeyError: " ++ uk) := by
  simp [display_verdicts, h1, h2]

/-- Unfolding equation of the display row loop when both lookups succeed. -/
theorem display_verdicts_cons_some
    (em : List (String × List (String × Nat))) (uk : String) (u : UserInfo)
    (results expectedRow : List (String × Nat))
    (rest : List (String × List (String × Nat)))
    (h1 : List.lookup uk TEST_USERS = some u)
    (h2 : List.lookup uk em = some expectedRow) :
    display_verdicts em ((uk, results) :: rest) =
      (match row_all_match results expectedRow with
       | .error e => .error e
       | .ok b =>
         match display_verdicts em rest with
         | .error e => .error e
         | .ok tail => .ok ((uk, b) :: tail)) := by
  simp [display_verdicts, h1, h2]

/-- Unfolding equation of the summary count when the expectation matrix has
no row for the user key. -/
theorem successful_users_go_cons_norow
    (em : List (String × List (String × Nat))) (uk : String)
    (results : List (String × Nat)) (rest : List (String × List (String × Nat)))
    (h : List.lookup uk em = none) :
    successful_users_go em ((uk, results) :: rest) = .error ("KeyError: " ++ uk) := by
  simp [successful_users_go, h]

/-- Unfolding equation of the summary count when the expectation row is
found. -/
theorem successful_users_go_cons_some
    (em : List (String × List (String × Nat))) (uk : String)
    (results expectedRow : List (String × Nat))
    (rest : List (String × List (String × Nat)))
    (h : List.lookup uk em = some expectedRow) :
    successful_users_go em ((uk, results) :: rest) =
      (match user_success results expectedRow with
       | .error e => .error e
       | .ok b =>
         match successful_users_go em rest with
         | .error e => .error e
         | .ok n => .ok ((if b then 1 else 0) + n)) := by
  simp [successful_users_go, h]

/-- C7: the comparison is a pure function of its inputs with no hidden
state: two observed-result collections with the same row keys whose rows
agree on every displayed cell lookup yield identical per-identity display
verdicts and identical summary pass counts.  In particular, applying the
comparison twice to the same inputs yields identical results. -/
theorem C7_comparator_extensional (em : List (String × List (String × Nat)))
    (a b : List (String × List (String × Nat)))
    (h : List.Forall₂ (fun x y => x.1 = y.1 ∧
           ∀ ep ∈ DISPLAY_ENDPOINTS,
             (List.lookup ep x.2).getD 0 = (List.lookup ep y.2).getD 0) a b) :
    display_verdicts em a = display_verdicts em b ∧
    successful_users_go em a = successful_users_go em b := by
  induction h with
  | nil => exact ⟨rfl, rfl⟩
  | cons hxy hrest ih =>
    rename_i x y l1 l2
    obtain ⟨hkey, hcells⟩ := hxy
    obtain ⟨k1, r1⟩ := x
    obtain ⟨k2, r2⟩ := y
    simp only at hkey
    subst hkey
    simp only at hcells
    have hrow : ∀ row : List (String × Nat),
        row_all_match r1 row = row_all_match r2 row :=
      fun row => row_match_go_congr r1 r2 row DISPLAY_ENDPOINTS hcells true
    have hus : ∀ row : List (String × Nat),
        user_success r1 row = user_success r2 row :=
      fun row => all_success_go_congr r1 r2 row (ENDPOINTS.map Prod.fst) hcells
    constructor
    · cases h1 : List.lookup k1 TEST_USERS with
      | none =>
        rw [display_verdicts_cons_nouser em k1 r1 l1 h1,
            display_verdicts_cons_nouser em k1 r2 l2 h1]
      | some u =>
        cases h2 : List.lookup k1 em with
        | none =>
          rw [display_verdicts_cons_noexp em k1 u r1 l1 h1 h2,
              display_verdicts_cons_noexp em k1 u r2 l2 h1 h2]
        | some row =>
          rw [display_verdicts_cons_some em k1 u r1 row l1 h1 h2,
              display_verdicts_cons_some em k1 u r2 row l2 h1 h2,
              hrow row, ih.1]
    · cases h2 : List.lookup k1 em with
      | none =>
        rw [successful_users_go_cons_norow em k1 r1 l1 h2,
            successful_users_go_cons_norow em k1 r2 l2 h2]
      | some row =>
        rw [successful_users_go_cons_some em k1 r1 row l1 h2,
            successful_users_go_cons_some em k1 r2 row l2 h2,
            hus row, ih.2]

/-- C7, witness: two single-row result collections that agree on every
displayed cell but differ in cell ordering and in an extra unread key
compare identically. -/
theorem C7_witness :
    display_verdicts EXPECTED_RESULTS
        [("user", [("public", 200), ("user", 200), ("manager", 403), ("admin", 403)])] =
      display_verdicts EXPECTED_RESULTS
        [("user", [("admin", 403), ("manager", 403), ("user", 200), ("public", 200),
                   ("extra", 7)])] ∧
    successful_users_go EXPECTED_RESULTS
        [("user", [("public", 200), ("user", 200), ("manager", 403), ("admin", 403)])] =
      successful_users_go EXPECTED_RESULTS
        [("user", [("admin", 403), ("manager", 403), ("user", 200), ("public", 200),
                   ("extra", 7)])] :=
  C7_comparator_extensional EXPECTED_RESULTS _ _
    (List.Forall₂.cons ⟨rfl, by decide⟩ List.Forall₂.nil)

/-- Reading the displayed cells of an expectation row missing one of them
raises a `KeyError`. -/
theorem read_cells_error_of_missing (expected : List (String × Nat)) :
    ∀ l : List String, (∃ ep ∈ l, List.lookup ep expected = none) →
      ∃ msg, read_cells expected l = .error msg := by
  intro l
  induction l with
  | nil => rintro ⟨ep, hmem, _⟩; cases hmem
  | cons ep rest ih =>
    rintro ⟨ep2, hmem, hnone⟩
    cases hl : List.lookup ep expected with
    | none => exact ⟨"KeyError: " ++ ep, by simp [read_cells, hl]⟩
    | some v =>
      rcases List.mem_cons.mp hmem with rfl | hmem2
      · rw [hl] at hnone; cases hnone
      · obtain ⟨msg, hm⟩ := ih ⟨ep2, hmem2, hnone⟩
        exact ⟨msg, by simp [read_cells, hl, hm]⟩

/-- Rendering the expected matrix ends in a `KeyError` whenever some row of
the matrix lacks one of its four displayed cells. -/
theorem display_expected_rows_error_of_missing :
    ∀ (em : List (String × List (String × Nat)))
      (uk : String) (row : List (String × Nat)) (ep : String),
      (uk, row) ∈ em → ep ∈ DISPLAY_ENDPOINTS → List.lookup ep row = none →
      ∃ msg, display_expected_rows em = .error msg := by
  intro em
  induction em with
  | nil => intro uk row ep hmem; cases hmem
  | cons hd rest ih =>
    intro uk row ep hmem hep hmiss
    obtain ⟨uk0, row0⟩ := hd
    cases hu : List.lookup uk0 TEST_USERS with
    | none => exact ⟨"KeyError: " ++ uk0, by simp [display_expected_rows, hu]⟩
    | some u =>
      cases hc : read_cells row0 DISPLAY_ENDPOINTS with
      | error e => exact ⟨e, by simp [display_expected_rows, hu, hc]⟩
      | ok cells =>
        rcases List.mem_cons.mp hmem with heq | hmem2
        · rw [Prod.mk.injEq] at heq
          obtain ⟨rfl, rfl⟩ := heq
          obtain ⟨msg, hm⟩ :=
            read_cells_error_of_missing row DISPLAY_ENDPOINTS ⟨ep, hep, hmiss⟩
          rw [hc] at hm
          cases hm
        · obtain ⟨msg, hm⟩ := ih uk row ep hmem2 hep hmiss
          exact ⟨msg, by simp [display_expected_rows, hu, hc, hm]⟩

/-- C3, counterexample.  Missing `"user"` pairs do not cause a load-time
`ConfigError` before probing: with the whole `"user"` expectation row
absent, the expected-matrix rendering passes, all 12 probes are issued, and
the run then dies with a comparison-time `KeyError` — while a single
missing cell in a present row aborts with a `KeyError` (not a
`ConfigError`) raised by the expected-matrix rendering, no validation
being involved. -/
theorem C3_counterexample :
    (main_flow EXPECTED_MISSING_ROW netOk200 postTok).1 = .error "KeyError: user" ∧
    (main_flow EXPECTED_MISSING_ROW netOk200 postTok).2.length = 12 ∧
    (main_flow EXPECTED_MISSING netOk200 postTok).1 = .error "KeyError: admin" ∧
    (main_flow EXPECTED_MISSING netOk200 postTok).2 = [] := by
  exact ⟨rfl, rfl, rfl, rfl⟩

/-- C3 (amended): the harness has no `ConfigError` and performs no
completeness validation of the identity × resource product.  A displayed
cell missing from a row that is present in the matrix does abort the run
before any probe, but only as the `KeyError` incidentally raised while
`display_expected_matrix` renders that row; an identity whose expectation
row is missing entirely passes that rendering, the full probe product is
issued, and the absence surfaces only at comparison time, as a `KeyError`
when the results matrix looks the row up. -/
theorem C3_no_config_error (net : Net) (post : TokenNet)
    (em em2 : List (String × List (String × Nat)))
    (uk : String) (row : List (String × Nat)) (ep : String)
    (hmem : (uk, row) ∈ em) (hep : ep ∈ DISPLAY_ENDPOINTS)
    (hmiss : List.lookup ep row = none)
    (cells : List (String × List Nat))
    (hok : display_expected_rows em2 = .ok cells)
    (hnorow : List.lookup "user" em2 = none) :
    ((main_flow em net post).2 = [] ∧
      ∃ msg, (main_flow em net post).1 = .error msg) ∧
    ((main_flow em2 net post).2 = (run_tests_t net post).2.2 ∧
      (main_flow em2 net post).1 = .error ("KeyError: " ++ "user")) := by
  constructor
  · obtain ⟨msg, hm⟩ :=
      display_expected_rows_error_of_missing em uk row ep hmem hep hmiss
    exact ⟨by simp [main_flow, hm], msg, by simp [main_flow, hm]⟩
  · have hv : display_verdicts em2 (run_tests_t net post).1 =
        .error ("KeyError: " ++ "user") := by
      have hrun : (run_tests_t net post).1 =
          ("user", (test_user_permissions_core net post
             ⟨"basic_user", "basic-users", "Basic User"⟩).1) ::
          [("app-admin", (test_user_permissions_core net post
             ⟨"appadmin", "app-admins", "Application Admin"⟩).1),
           ("platform-admin", (test_user_permissions_core net post
             ⟨"babu.systech", "platform-admins", "Platform Admin"⟩).1)] := rfl
      rw [hrun]
      exact display_verdicts_cons_noexp em2 "user"
        ⟨"basic_user", "basic-users", "Basic User"⟩ _ _ rfl hnorow
    exact ⟨by simp [main_flow, hok], by simp [main_flow, hok, hv]⟩

/-- C3, witness for the amended theorem at the matrix missing the
`("user", "admin")` cell and the matrix missing the whole `"user"` row. -/
theorem C3_witness :
    ((main_flow EXPECTED_MISSING netOk200 postTok).2 = [] ∧
      ∃ msg, (main_flow EXPECTED_MISSING netOk200 postTok).1 = .error msg) ∧
    ((main_flow EXPECTED_MISSING_ROW netOk200 postTok).2 =
        (run_tests_t netOk200 postTok).2.2 ∧
      (main_flow EXPECTED_MISSING_ROW netOk200 postTok).1 =
        .error ("KeyError: " ++ "user")) :=
  C3_no_config_error netOk200 postTok EXPECTED_MISSING EXPECTED_MISSING_ROW
    "user" [("public", 200), ("user", 200), ("manager", 403)] "admin"
    (by decide) (by decide) rfl
    [("app-admin", [200, 200, 200, 403]), ("platform-admin", [200, 200, 200, 200])]
    rfl rfl

/-- Embedded `test_user_permissions` with an untruthy token returns the all-zero
dict, its single token request, and an empty GET trace. -/
theorem test_user_permissions_core_falsy (net : Net) (post : TokenNet)
    (u : UserInfo)
    (hfail : tokenTruthy (get_jwt_token post u.username PASSWORD) = false) :
    test_user_permissions_core net post u =
      (ENDPOINTS.map (fun kv => (kv.1, 0)),
       [mkTokenRequest u.username PASSWORD], []) := by
  unfold test_user_permissions_core
  rw [get_jwt_token_t_eq]
  simp [hfail]

/-- Embedded `test_user_permissions` issues exactly one token request, for its own
user's name, in both the token-failure and the probing branch. -/
theorem core_token_trace (net : Net) (post : TokenNet) (u : UserInfo) :
    (test_user_permissions_core net post u).2.1 =
      [mkTokenRequest u.username PASSWORD] := by
  unfold test_user_permissions_core
  rw [get_jwt_token_t_eq]
  cases htk : tokenTruthy (get_jwt_token post u.username PASSWORD) <;> simp [htk]

/-- C9: for an identity of the run, the token endpoint is hit exactly once
— a single request carrying that identity's own username, no retries;
every GET the identity's probes issue carries either no Authorization
header or `Bearer` of the one token acquired by that single request; and
the identity's whole result is unchanged under any change of the token
issuer that leaves the answer to that identity's own token request intact —
in particular no other identity's credential can influence or be attached
to its probes. -/
theorem C9_single_credential (net : Net) (post post2 : TokenNet)
    (user_key : String) (u : UserInfo)
    (hu : List.lookup user_key TEST_USERS = some u)
    (r : List (String × Nat) × List TokenRequest × List HttpRequest)
    (hr : test_user_permissions_t net post user_key = some r)
    (req : HttpRequest) (hreq : req ∈ r.2.2)
    (hpost : post (mkTokenRequest u.username PASSWORD) =
      post2 (mkTokenRequest u.username PASSWORD)) :
    r.2.1 = [mkTokenRequest u.username PASSWORD] ∧
    (req.authorization = none ∨
      ∃ t, get_jwt_token post u.username PASSWORD = some t ∧
        req.authorization = some ("Bearer " ++ t)) ∧
    test_user_permissions_t net post user_key =
      test_user_permissions_t net post2 user_key := by
  simp only [test_user_permissions_t, hu, Option.map_some', Option.some.injEq] at hr
  refine ⟨?_, ?_, ?_⟩
  · rw [← hr]
    exact core_token_trace net post u
  · subst hr
    cases htk : tokenTruthy (get_jwt_token post u.username PASSWORD) with
    | false =>
      rw [test_user_permissions_core_falsy net post u htk] at hreq
      simp at hreq
    | true =>
      obtain ⟨t, htok, hne⟩ :
          ∃ t, get_jwt_token post u.username PASSWORD = some t ∧ t ≠ "" := by
        cases hg : get_jwt_token post u.username PASSWORD with
        | none => rw [hg] at htk; simp [tokenTruthy] at htk
        | some t =>
          refine ⟨t, rfl, ?_⟩
          rw [hg] at htk
          simpa [tokenTruthy] using htk
      rw [test_user_permissions_core_token net post u t htok hne] at hreq
      simp only [List.mem_map] at hreq
      obtain ⟨kv, hkv, rfl⟩ := hreq
      by_cases hpub : kv.1 = "public"
      · left
        simp [hpub, test_endpoint_t, probe_auth, tokenTruthy]
      · by_cases hauth : kv.2.auth_required
        · right
          refine ⟨t, htok, ?_⟩
          simp [hpub, test_endpoint_t, probe_auth, tokenTruthy, hauth, hne]
        · left
          simp [hpub, test_endpoint_t, probe_auth, tokenTruthy, hauth]
  · have hgt : get_jwt_token_t post u.username PASSWORD =
        get_jwt_token_t post2 u.username PASSWORD := by
      simp only [get_jwt_token_t, hpost]
    simp only [test_user_permissions_t, hu, Option.map_some']
    simp only [test_user_permissions_core, hgt]

/-- C9, witness: identity `"user"` on the healthy network and token issuer,
at the admin probe's request, comparing the issuer against itself. -/
theorem C9_witness :
    (([("public", 200), ("user", 200), ("manager", 200), ("admin", 200)],
      [mkTokenRequest "basic_user" PASSWORD],
      [(⟨SPRING_BOOT_URL ++ "/api/public/hello", none⟩ : HttpRequest),
       ⟨SPRING_BOOT_URL ++ "/api/user/hello", some ("Bearer " ++ "tok")⟩,
       ⟨SPRING_BOOT_URL ++ "/api/manager/hello", some ("Bearer " ++ "tok")⟩,
       ⟨SPRING_BOOT_URL ++ "/api/admin/hello", some ("Bearer " ++ "tok")⟩]) :
      List (String × Nat) × List TokenRequest × List HttpRequest).2.1 =
      [mkTokenRequest "basic_user" PASSWORD] ∧
    ((⟨SPRING_BOOT_URL ++ "/api/admin/hello", some ("Bearer " ++ "tok")⟩ :
        HttpRequest).authorization = none ∨
      ∃ t, get_jwt_token postTok "basic_user" PASSWORD = some t ∧
        (⟨SPRING_BOOT_URL ++ "/api/admin/hello", some ("Bearer " ++ "tok")⟩ :
          HttpRequest).authorization = some ("Bearer " ++ t)) ∧
    test_user_permissions_t netOk200 postTok "user" =
      test_user_permissions_t netOk200 postTok "user" :=
  C9_single_credential netOk200 postTok postTok "user"
    ⟨"basic_user", "basic-users", "Basic User"⟩ rfl
    ([("public", 200), ("user", 200), ("manager", 200), ("admin", 200)],
     [mkTokenRequest "basic_user" PASSWORD],
     [⟨SPRING_BOOT_URL ++ "/api/public/hello", none⟩,
      ⟨SPRING_BOOT_URL ++ "/api/user/hello", some ("Bearer " ++ "tok")⟩,
      ⟨SPRING_BOOT_URL ++ "/api/manager/hello", some ("Bearer " ++ "tok")⟩,
      ⟨SPRING_BOOT_URL ++ "/api/admin/hello", some ("Bearer " ++ "tok")⟩])
    rfl ⟨SPRING_BOOT_URL ++ "/api/admin/hello", some ("Bearer " ++ "tok")⟩
    (by decide) rfl

/-- The `results.get(endpoint, 0)` lookup in the all-zero result dict is 0
at every endpoint key. -/
theorem lookup_all_zero (ep : String) :
    (List.lookup ep (ENDPOINTS.map (fun kv => (kv.1, 0)))).getD 0 = 0 := by
  have h : ∀ (l : List (String × Endpoint)),
      (List.lookup ep (l.map (fun kv => (kv.1, (0 : Nat))))).getD 0 = 0 := by
    intro l
    induction l with
    | nil => rfl
    | cons kv rest ih =>
      simp only [List.map_cons, List.lookup]
      cases ep == kv.1 <;> simp [ih]
  exact h ENDPOINTS

/-- C10: when `get_jwt_token` returns `None` for an identity,
`test_user_permissions` issues no GET request at all (for the public
endpoint included) and maps every endpoint key to the sentinel status 0 —
the same sentinel `test_endpoint` records for a transport error — so every
cell of that identity compares unequal to any nonzero expected code. -/
theorem C10_token_failure_sentinel (net net2 : Net) (post : TokenNet)
    (user_key : String) (u : UserInfo)
    (hu : List.lookup user_key TEST_USERS = some u)
    (hfail : get_jwt_token post u.username PASSWORD = none)
    (endpoint : Endpoint) (tok : Option String) (msg : String)
    (herr : net2 (SPRING_BOOT_URL ++ endpoint.path) (probe_auth endpoint tok) =
      .error msg)
    (ep : String) (e : Nat) (hne : e ≠ 0) :
    (test_user_permissions_t net post user_key).map (fun r => r.2.2) = some [] ∧
    (test_user_permissions_t net post user_key).map (fun r => r.1) =
      some (ENDPOINTS.map (fun kv => (kv.1, 0))) ∧
    (test_endpoint_t net2 endpoint tok).1.1 = 0 ∧
    (((List.lookup ep (ENDPOINTS.map (fun kv => (kv.1, 0)))).getD 0 == e) = false) := by
  have hcore := test_user_permissions_core_fail net post u hfail
  refine ⟨?_, ?_, by simp [test_endpoint_t, herr], ?_⟩
  · simp [test_user_permissions_t, hu, hcore]
  · simp [test_user_permissions_t, hu, hcore]
  · simp only [lookup_all_zero]
    exact beq_eq_false_iff_ne.mpr (Ne.symm hne)

/-- C10, witness: identity `"user"` with the failing token issuer, the
always-failing network as the transport-error comparison, the `"manager"`
cell and its nonzero expected code 403. -/
theorem C10_witness :
    (test_user_permissions_t netOk200 postFail "user").map (fun r => r.2.2) = some [] ∧
    (test_user_permissions_t netOk200 postFail "user").map (fun r => r.1) =
      some (ENDPOINTS.map (fun kv => (kv.1, 0))) ∧
    (test_endpoint_t netDown ⟨"/api/manager/hello", "Manager Level", true⟩
      (some "tok")).1.1 = 0 ∧
    (((List.lookup "manager"
        (ENDPOINTS.map (fun kv => (kv.1, 0)))).getD 0 == 403) = false) :=
  C10_token_failure_sentinel netOk200 netDown postFail "user"
    ⟨"basic_user", "basic-users", "Basic User"⟩ rfl rfl
    ⟨"/api/manager/hello", "Manager Level", true⟩ (some "tok") "timed out" rfl
    "manager" 403 (by decide)

end V2QuickTest
